import Mathlib

/-!
Shallow embedding of the calendar/weather normalization pipeline of
`trmnl-weather-gcal` (`src/app/calendar.py`, `src/app/weather.py`, the
`/api/events` handler of `src/app/main.py`) together with theorems checking
the specification's claims about it.

Representation choices:
* Python `float` values carried by the weather feeds are represented as `ℚ`;
  `int` results of `round` as `ℤ`.
* Python `datetime.date` is `Date` (year/month/day as `Nat`), naive
  `datetime.datetime` is `DT` (microseconds are not modelled: no code path
  of the repository produces or compares a non-zero microsecond value).
* `zoneinfo.ZoneInfo` display timezones are modelled as fixed UTC offsets in
  minutes (`tzOff : Int`); `datetime.astimezone` on an offset-aware value
  shifts the wall clock by the offset difference, and on a naive value the
  wall clock is kept (the pipeline only ever renders wall-clock fields, and
  no claim depends on a DST transition).
* Fallible Python code (exceptions raised by `strptime`, `fromisoformat`,
  key/index errors) is modelled with `Option`/`Except` results.
* `dict` lookups on the upstream JSON payloads are modelled by structures
  whose fields are `Option`s: a `none` field is an absent key, and reading
  it in a monadic chain reproduces the `KeyError` (which `get_all_weather`
  catches, turning the whole snapshot into `None`).
-/

/- Batteries marks the `Rat` field operations `@[irreducible]`; restore the
default reducibility locally so that concrete rational computations in the
witnesses below reduce under `decide`. -/
attribute [local semireducible] Rat.add Rat.sub Rat.mul Rat.inv Rat.ofScientific

/-! ### Decimal digit strings -/

/-- Decimal digits of `n`, most significant first (the digits `strftime`
and `str` emit for a non-negative integer, without padding). -/
def toDigits (n : Nat) : List Char :=
  if h : n < 10 then [Char.ofNat (48 + n)]
  else toDigits (n / 10) ++ [Char.ofNat (48 + n % 10)]
decreasing_by exact Nat.div_lt_self (by omega) (by omega)

unseal toDigits

/-- Value of a most-significant-first decimal digit string. -/
def ofDigits (cs : List Char) : Nat :=
  cs.foldl (fun a c => a * 10 + (c.toNat - 48)) 0

/-- Zero-pad to two digits, as `strftime`'s `%m`/`%d`/`%M` do. -/
def pad2 (n : Nat) : List Char :=
  if n < 10 then '0' :: toDigits n else toDigits n

/-- Unpadded decimal rendering (`%-d`, `%-I`, `str`). -/
def natStr (n : Nat) : String := ⟨toDigits n⟩

/-! ### Dates -/

structure Date where
  year : Nat
  month : Nat
  day : Nat
deriving DecidableEq

/-- Gregorian leap-year test (as `calendar.isleap` / `datetime`). -/
def isLeap (y : Nat) : Bool :=
  (y % 4 == 0 && y % 100 != 0) || y % 400 == 0

/-- Days in a month of a given year. -/
def daysInMonth (y m : Nat) : Nat :=
  if m = 2 then (if isLeap y then 29 else 28)
  else if m = 4 ∨ m = 6 ∨ m = 9 ∨ m = 11 then 30
  else 31

/-- Days in the months of year `y` strictly before month `m`. -/
def daysBeforeMonth (y m : Nat) : Nat :=
  ((List.range (m - 1)).map (fun i => daysInMonth y (i + 1))).sum

/-- Proleptic-Gregorian day number: `0001-01-01` is day 1 (the ordinal used
by `datetime.date.toordinal`, which drives weekday computation and
`timedelta` arithmetic). -/
def rataDie (d : Date) : Nat :=
  365 * (d.year - 1) + (d.year - 1) / 4 - (d.year - 1) / 100 + (d.year - 1) / 400
    + daysBeforeMonth d.year d.month + d.day

/-- Inverse of `rataDie` on valid dates (standard civil-from-days
computation, with day 0 of the shifted epoch at 0000-03-01). -/
def fromRataDie (rd : Nat) : Date :=
  let z := rd + 305
  let era := z / 146097
  let doe := z % 146097
  let yoe := (doe - doe / 1460 + doe / 36524 - doe / 146096) / 365
  let y := yoe + era * 400
  let doy := doe - (365 * yoe + yoe / 4 - yoe / 100)
  let mp := (5 * doy + 2) / 153
  let d := doy - (153 * mp + 2) / 5 + 1
  let m := if mp < 10 then mp + 3 else mp - 9
  if m ≤ 2 then ⟨y + 1, m, d⟩ else ⟨y, m, d⟩

/-- Weekday abbreviation (`%a`, C locale): day 1 of `rataDie`, 0001-01-01,
is a Monday. -/
def weekdayAbbr (d : Date) : String :=
  ["Sun", "Mon", "Tue", "Wed", "Thu", "Fri", "Sat"].getD (rataDie d % 7) ""

/-- Month abbreviation (`%b`, C locale). -/
def monthAbbr (m : Nat) : String :=
  ["Jan", "Feb", "Mar", "Apr", "May", "Jun",
   "Jul", "Aug", "Sep", "Oct", "Nov", "Dec"].getD (m - 1) ""

/-- `strftime("%a %b %-d")`. -/
def formatAMD (d : Date) : String :=
  weekdayAbbr d ++ " " ++ monthAbbr d.month ++ " " ++ natStr d.day

/-- `strftime("%Y-%m-%d")`: month and day zero-padded to two digits, the
year unpadded (glibc `%Y`; identical on four-digit years). -/
def formatYMD (d : Date) : String :=
  ⟨toDigits d.year ++ '-' :: (pad2 d.month ++ '-' :: pad2 d.day)⟩

/-! ### Naive datetimes -/

structure DT where
  year : Nat
  month : Nat
  day : Nat
  hour : Nat
  minute : Nat
  second : Nat
deriving DecidableEq

def dtDate (t : DT) : Date := ⟨t.year, t.month, t.day⟩

/-- Comparison of naive datetimes (field-lexicographic, as in Python). -/
def dtLt (a b : DT) : Bool :=
  if a.year ≠ b.year then a.year < b.year
  else if a.month ≠ b.month then a.month < b.month
  else if a.day ≠ b.day then a.day < b.day
  else if a.hour ≠ b.hour then a.hour < b.hour
  else if a.minute ≠ b.minute then a.minute < b.minute
  else a.second < b.second

/-- `now.replace(minute=0, second=0, microsecond=0)`. -/
def truncHour (t : DT) : DT := { t with minute := 0, second := 0 }

/-- `date - timedelta(days=1)`. -/
def predDay (d : Date) : Date :=
  if d.day > 1 then ⟨d.year, d.month, d.day - 1⟩
  else if d.month > 1 then ⟨d.year, d.month - 1, daysInMonth d.year (d.month - 1)⟩
  else ⟨d.year - 1, 12, 31⟩

/-- `datetime - timedelta(days=1)` (time of day preserved). -/
def predDayDT (t : DT) : DT :=
  let p := predDay (dtDate t)
  ⟨p.year, p.month, p.day, t.hour, t.minute, t.second⟩

/-- Minutes since the epoch of `rataDie` (seconds dropped; used only for
whole-minute timezone shifts, which preserve seconds). -/
def toTotalMinutes (t : DT) : Int :=
  (rataDie (dtDate t) : Int) * 1440 + t.hour * 60 + t.minute

/-- Shift a datetime by a whole number of minutes. -/
def addMinutesDT (t : DT) (delta : Int) : DT :=
  let tot := (toTotalMinutes t + delta).toNat
  let d := fromRataDie (tot / 1440)
  ⟨d.year, d.month, d.day, tot % 1440 / 60, tot % 1440 % 60, t.second⟩

/-- `dt.astimezone(tz)` for the fixed-offset timezone model: an
offset-aware value is shifted to the display offset; a naive value is
taken as already being display-local wall time. -/
def astimezone (t : DT) (srcOff : Option Int) (tzOff : Int) : DT :=
  match srcOff with
  | none => t
  | some o => addMinutesDT t (tzOff - o)

/-! ### Parsing (`strptime`, `fromisoformat`) -/

/-- Split at the first occurrence of `sep`; `none` when `sep` is absent. -/
def splitAtChar (sep : Char) (cs : List Char) : Option (List Char × List Char) :=
  match cs.span (fun c => c != sep) with
  | (_, []) => none
  | (a, _ :: rest) => some (a, rest)

/-- Read a digit group of between `lo` and `hi` characters. -/
def readNat (cs : List Char) (lo hi : Nat) : Option Nat :=
  if lo ≤ cs.length ∧ cs.length ≤ hi ∧ cs.all Char.isDigit then
    some (ofDigits cs)
  else none

/-- `datetime.strptime(s, "%Y-%m-%d")`, reduced to its date: `%Y` matches
one to four digits, `%m`/`%d` one or two, the whole string must be
consumed, and the `datetime` constructor validates the ranges
(`MINYEAR = 1`, `MAXYEAR = 9999`). -/
def strptimeDate (s : String) : Option Date := do
  let (ys, r) ← splitAtChar '-' s.data
  let (ms, ds) ← splitAtChar '-' r
  let y ← readNat ys 1 4
  let m ← readNat ms 1 2
  let d ← readNat ds 1 2
  if 1 ≤ y ∧ y ≤ 9999 ∧ 1 ≤ m ∧ m ≤ 12 ∧ 1 ≤ d ∧ d ≤ daysInMonth y m then
    some ⟨y, m, d⟩
  else none

/-- The strict `YYYY-MM-DD` date accepted by `datetime.fromisoformat`. -/
def parseIsoDate (cs : List Char) : Option Date :=
  match cs with
  | [y1, y2, y3, y4, '-', m1, m2, '-', d1, d2] =>
    if ([y1, y2, y3, y4, m1, m2, d1, d2]).all Char.isDigit then
      let y := ofDigits [y1, y2, y3, y4]
      let m := ofDigits [m1, m2]
      let d := ofDigits [d1, d2]
      if 1 ≤ y ∧ 1 ≤ m ∧ m ≤ 12 ∧ 1 ≤ d ∧ d ≤ daysInMonth y m then
        some ⟨y, m, d⟩
      else none
    else none
  | _ => none

/-- A `±HH:MM` / `Z` UTC-offset suffix, in minutes; `none` for the empty
suffix (a naive datetime). Anything else fails. -/
def parseIsoOffset (cs : List Char) : Option (Option Int) :=
  match cs with
  | [] => some none
  | ['Z'] => some (some 0)
  | [sign, h1, h2, ':', m1, m2] =>
    if ([h1, h2, m1, m2]).all Char.isDigit then
      let v : Int := ofDigits [h1, h2] * 60 + ofDigits [m1, m2]
      if sign = '+' then some (some v)
      else if sign = '-' then some (some (-v))
      else none
    else none
  | _ => none

/-- The `HH:MM[:SS]` clock (fractional seconds are not modelled: the
upstream feeds never send them) followed by an optional offset. -/
def parseIsoTime (cs : List Char) : Option (Nat × Nat × Nat × Option Int) :=
  match cs with
  | h1 :: h2 :: ':' :: m1 :: m2 :: rest =>
    if ([h1, h2, m1, m2]).all Char.isDigit then
      let h := ofDigits [h1, h2]
      let mi := ofDigits [m1, m2]
      if h ≤ 23 ∧ mi ≤ 59 then
        match rest with
        | ':' :: s1 :: s2 :: rest2 =>
          if ([s1, s2]).all Char.isDigit ∧ ofDigits [s1, s2] ≤ 59 then
            (parseIsoOffset rest2).map (fun off => (h, mi, ofDigits [s1, s2], off))
          else none
        | _ => (parseIsoOffset rest).map (fun off => (h, mi, 0, off))
      else none
    else none
  | _ => none

/-- `datetime.fromisoformat`: a date, optionally followed by a
`'T'`-separated clock time and UTC offset. -/
def fromisoformat (s : String) : Option (DT × Option Int) :=
  match s.data.span (fun c => c != 'T') with
  | (dpart, []) =>
    (parseIsoDate dpart).map (fun d => (⟨d.year, d.month, d.day, 0, 0, 0⟩, none))
  | (dpart, _ :: tpart) => do
    let d ← parseIsoDate dpart
    let (h, mi, se, off) ← parseIsoTime tpart
    some (⟨d.year, d.month, d.day, h, mi, se⟩, off)

/-- `fromisoformat` restricted to naive results: comparing an offset-aware
datetime with the naive `current_hour` would raise a `TypeError` in
`get_all_weather`, which the surrounding `try` turns into `None`, so both
failure modes collapse to `none` here. -/
def naiveISO (s : String) : Option DT :=
  match fromisoformat s with
  | some (t, none) => some t
  | _ => none

/-! ### Python `round` -/

/-- Python `round(x)`: nearest integer, ties to even. -/
def pyRound (q : ℚ) : ℤ :=
  let f := Rat.floor q
  let r := q - (f : ℚ)
  if r < 1/2 then f
  else if 1/2 < r then f + 1
  else if f % 2 = 0 then f else f + 1

/-- Python `round(x, 1)`: nearest tenth, ties to even. -/
def round1 (q : ℚ) : ℚ := (pyRound (q * 10) : ℚ) / 10

/-! ### `src/app/calendar.py` -/

/-- The `start`/`end` sub-objects of an upstream Google Calendar event
record: an all-day boundary carries `date`, a timed one `dateTime`. -/
structure StartEnd where
  date : Option String := none
  dateTime : Option String := none
deriving DecidableEq

/-- An upstream event record (the fields `calendar.py` reads). -/
structure Record where
  status : Option String := none
  start : Option StartEnd := none
  end_ : Option StartEnd := none
  id : Option String := none
  summary : Option String := none
  location : Option String := none
deriving DecidableEq

/-- The normalized event dictionary built by `normalize_event`. -/
structure Event where
  id : String
  summary : String
  date : String
  date_formatted : String
  start_time : String
  end_time : String
  all_day : Bool
  location : Option String
  calendar_id : String
deriving DecidableEq

/-- `calendar._format_time(dt)`: `%-I %p` on the hour, `%-I:%M %p`
otherwise. -/
def format_time (dt : DT) : String :=
  if dt.minute = 0 then
    natStr (if dt.hour % 12 = 0 then 12 else dt.hour % 12) ++ " "
      ++ (if dt.hour < 12 then "AM" else "PM")
  else
    natStr (if dt.hour % 12 = 0 then 12 else dt.hour % 12) ++ ":"
      ++ (⟨pad2 dt.minute⟩ : String) ++ " "
      ++ (if dt.hour < 12 then "AM" else "PM")

/-- `calendar._format_date_range(start_dt, end_dt, is_all_day)`. -/
def format_date_range (start_dt : DT) (end_dt : Option DT) (is_all_day : Bool) : String :=
  let start_date_formatted := formatAMD (dtDate start_dt)
  match end_dt with
  | none => start_date_formatted
  | some e =>
    let actual_end := if is_all_day then predDayDT e else e
    if dtDate start_dt = dtDate actual_end then start_date_formatted
    else if is_all_day then
      if start_dt.month = actual_end.month then
        start_date_formatted ++ "-" ++ natStr actual_end.day
      else
        start_date_formatted ++ "-" ++ monthAbbr actual_end.month ++ " " ++ natStr actual_end.day
    else
      start_date_formatted ++ " " ++ format_time start_dt ++ "-"
        ++ monthAbbr actual_end.month ++ " " ++ natStr actual_end.day ++ " "
        ++ format_time actual_end

/-- `calendar._parse_event_time(event, timezone)`: `.ok none` models the
`return None, False` path, `.error` a raised `ValueError`. -/
def parse_event_time (event : Record) (tzOff : Int) : Except String (Option (DT × Bool)) :=
  match event.start with
  | none => .ok none
  | some st =>
    match st.date with
    | some date_str =>
      match strptimeDate date_str with
      | some d => .ok (some (⟨d.year, d.month, d.day, 0, 0, 0⟩, true))
      | none => .error "ValueError: strptime"
    | none =>
      match st.dateTime with
      | some dt_str =>
        match fromisoformat dt_str with
        | some (t, off) => .ok (some (astimezone t off tzOff, false))
        | none => .error "ValueError: fromisoformat"
      | none => .ok none

/-- `calendar._parse_event_end_time(event, timezone)`. -/
def parse_event_end_time (event : Record) (tzOff : Int) : Except String (Option DT) :=
  match event.end_ with
  | none => .ok none
  | some en =>
    match en.date with
    | some date_str =>
      match strptimeDate date_str with
      | some d => .ok (some ⟨d.year, d.month, d.day, 0, 0, 0⟩)
      | none => .error "ValueError: strptime"
    | none =>
      match en.dateTime with
      | some dt_str =>
        match fromisoformat dt_str with
        | some (t, off) => .ok (some (astimezone t off tzOff))
        | none => .error "ValueError: fromisoformat"
      | none => .ok none

/-- `calendar.normalize_event(event, calendar_id, timezone)`: `.ok none`
when the event is skipped, `.error` when a parse exception escapes. -/
def normalize_event (event : Record) (calendar_id : String) (tzOff : Int) :
    Except String (Option Event) :=
  if event.status = some "cancelled" then .ok none
  else do
    match ← parse_event_time event tzOff with
    | none => pure none
    | some (start_dt, is_all_day) => do
      let end_dt ← parse_event_end_time event tzOff
      pure (some {
        id := event.id.getD ""
        summary := event.summary.getD "(No title)"
        date := formatYMD (dtDate start_dt)
        date_formatted := format_date_range start_dt end_dt is_all_day
        start_time := if is_all_day then "" else format_time start_dt
        end_time :=
          if is_all_day then ""
          else match end_dt with
            | none => ""
            | some e => format_time e
        all_day := is_all_day
        location := event.location
        calendar_id := calendar_id })

/-- The per-page accumulation loop of `calendar.fetch_calendar_events`
(lines 179-182): normalized events are appended, `None` results are
skipped, and an exception raised by `normalize_event` propagates and
aborts the whole fetch. -/
def processItems (items : List Record) (calendar_id : String) (tzOff : Int) :
    Except String (List Event) :=
  match items with
  | [] => .ok []
  | event :: rest => do
    let normalized ← normalize_event event calendar_id tzOff
    let events ← processItems rest calendar_id tzOff
    pure (match normalized with
      | some ev => ev :: events
      | none => events)

/-- The sort key of `calendar.get_all_events` (lines 211-216): date
string, all-day rank, start-time string. -/
def sort_key (e : Event) : String × Nat × String :=
  (e.date, if e.all_day then 0 else 1,
   if e.start_time ≠ "" then e.start_time else "")

/-- The key as a lexicographically ordered triple (Python compares key
tuples left to right). -/
def keyLex (e : Event) : Lex (String × Lex (Nat × String)) :=
  toLex ((sort_key e).1, toLex ((sort_key e).2.1, (sort_key e).2.2))

/-- The comparator realised by `all_events.sort(key=sort_key)`. -/
def sortLe (a b : Event) : Bool := decide (keyLex a ≤ keyLex b)

/-- The merge-and-sort step of `calendar.get_all_events` (line 218): a
stable sort of the concatenated per-calendar event lists by `sort_key`. -/
def get_all_events_sort (all_events : List Event) : List Event :=
  all_events.mergeSort sortLe

/-! ### `src/app/weather.py` -/

/-- `weather._degrees_to_compass(degrees)`. -/
def degrees_to_compass (degrees : ℚ) : String :=
  let directions := ["N", "NNE", "NE", "ENE", "E", "ESE", "SE", "SSE",
                     "S", "SSW", "SW", "WSW", "W", "WNW", "NW", "NNW"]
  directions.getD ((pyRound (degrees / (45/2))) % 16).toNat ""

/-- `weather._format_time(iso_time)`: parse then `%-I:%M %p` (always with
minutes). `none` models the `ValueError` of an unparsable string. -/
def w_format_time (iso_time : String) : Option String :=
  (fromisoformat iso_time).map (fun p =>
    natStr (if p.1.hour % 12 = 0 then 12 else p.1.hour % 12) ++ ":"
      ++ (⟨pad2 p.1.minute⟩ : String) ++ " "
      ++ (if p.1.hour < 12 then "AM" else "PM"))

/-- `weather._format_hour(iso_time)`: parse then `%-I %p`. -/
def w_format_hour (iso_time : String) : Option String :=
  (fromisoformat iso_time).map (fun p =>
    natStr (if p.1.hour % 12 = 0 then 12 else p.1.hour % 12) ++ " "
      ++ (if p.1.hour < 12 then "AM" else "PM"))

/-- `weather._format_date(iso_date)`: parse then `%a %b %-d`. -/
def w_format_date (iso_date : String) : Option String :=
  (fromisoformat iso_date).map (fun p => formatAMD (dtDate p.1))

def svg_sun : String := "<svg width=\"16\" height=\"16\" viewBox=\"0 0 16 16\"><circle cx=\"8\" cy=\"8\" r=\"4\" fill=\"#000\"/><g stroke=\"#000\" stroke-width=\"1.5\"><line x1=\"8\" y1=\"1\" x2=\"8\" y2=\"3\"/><line x1=\"8\" y1=\"13\" x2=\"8\" y2=\"15\"/><line x1=\"1\" y1=\"8\" x2=\"3\" y2=\"8\"/><line x1=\"13\" y1=\"8\" x2=\"15\" y2=\"8\"/><line x1=\"3\" y1=\"3\" x2=\"4.5\" y2=\"4.5\"/><line x1=\"11.5\" y1=\"11.5\" x2=\"13\" y2=\"13\"/><line x1=\"3\" y1=\"13\" x2=\"4.5\" y2=\"11.5\"/><line x1=\"11.5\" y1=\"4.5\" x2=\"13\" y2=\"3\"/></g></svg>"

def svg_cloud : String := "<svg width=\"16\" height=\"16\" viewBox=\"0 0 16 16\"><path d=\"M4 12a3 3 0 0 1-.1-6A4 4 0 0 1 11.9 5a2.5 2.5 0 0 1 .1 5H4z\" fill=\"#000\"/></svg>"

def svg_part_cloud : String := "<svg width=\"16\" height=\"16\" viewBox=\"0 0 16 16\"><circle cx=\"6\" cy=\"6\" r=\"3\" fill=\"#000\"/><g stroke=\"#000\" stroke-width=\"1\"><line x1=\"6\" y1=\"1\" x2=\"6\" y2=\"2\"/><line x1=\"1\" y1=\"6\" x2=\"2\" y2=\"6\"/><line x1=\"2.5\" y1=\"2.5\" x2=\"3.2\" y2=\"3.2\"/><line x1=\"9.5\" y1=\"2.5\" x2=\"8.8\" y2=\"3.2\"/></g><path d=\"M5 13a2.5 2.5 0 0 1-.1-5A3.5 3.5 0 0 1 11.4 7 2 2 0 0 1 11.5 11H5z\" fill=\"#000\"/></svg>"

def svg_rain : String := "<svg width=\"16\" height=\"16\" viewBox=\"0 0 16 16\"><path d=\"M4 8a2.5 2.5 0 0 1-.1-5A3.5 3.5 0 0 1 10.4 2 2 2 0 0 1 10.5 6H4z\" fill=\"#000\"/><g stroke=\"#000\" stroke-width=\"1.5\" stroke-linecap=\"round\"><line x1=\"4\" y1=\"10\" x2=\"3\" y2=\"14\"/><line x1=\"8\" y1=\"10\" x2=\"7\" y2=\"14\"/><line x1=\"12\" y1=\"10\" x2=\"11\" y2=\"14\"/></g></svg>"

def svg_snow : String := "<svg width=\"16\" height=\"16\" viewBox=\"0 0 16 16\"><path d=\"M4 7a2.5 2.5 0 0 1-.1-5A3.5 3.5 0 0 1 10.4 1 2 2 0 0 1 10.5 5H4z\" fill=\"#000\"/><g fill=\"#000\"><circle cx=\"4\" cy=\"10\" r=\"1\"/><circle cx=\"8\" cy=\"11\" r=\"1\"/><circle cx=\"12\" cy=\"10\" r=\"1\"/><circle cx=\"6\" cy=\"14\" r=\"1\"/><circle cx=\"10\" cy=\"14\" r=\"1\"/></g></svg>"

def svg_storm : String := "<svg width=\"16\" height=\"16\" viewBox=\"0 0 16 16\"><path d=\"M4 7a2.5 2.5 0 0 1-.1-5A3.5 3.5 0 0 1 10.4 1 2 2 0 0 1 10.5 5H4z\" fill=\"#000\"/><polygon points=\"9,8 6,12 8,12 7,16 11,11 9,11 10,8\" fill=\"#000\"/></svg>"

def svg_fog : String := "<svg width=\"16\" height=\"16\" viewBox=\"0 0 16 16\"><g stroke=\"#000\" stroke-width=\"2\" stroke-linecap=\"round\"><line x1=\"2\" y1=\"6\" x2=\"14\" y2=\"6\"/><line x1=\"2\" y1=\"10\" x2=\"14\" y2=\"10\"/><line x1=\"4\" y1=\"14\" x2=\"12\" y2=\"14\"/></g></svg>"

/-- `weather._weather_code_to_icon(code)` (`icons.get(code, cloud)`). -/
def weather_code_to_icon (code : Nat) : String :=
  match code with
  | 0 => svg_sun | 1 => svg_sun
  | 2 => svg_part_cloud
  | 3 => svg_cloud
  | 45 => svg_fog | 48 => svg_fog
  | 51 => svg_rain | 53 => svg_rain | 55 => svg_rain | 56 => svg_rain
  | 57 => svg_rain | 61 => svg_rain | 63 => svg_rain | 65 => svg_rain
  | 66 => svg_rain | 67 => svg_rain
  | 71 => svg_snow | 73 => svg_snow | 75 => svg_snow | 77 => svg_snow
  | 80 => svg_rain | 81 => svg_rain | 82 => svg_rain
  | 85 => svg_snow | 86 => svg_snow
  | 95 => svg_storm | 96 => svg_storm | 99 => svg_storm
  | _ => svg_cloud

/-- `weather._weather_code_to_condition(code)` (`.get(code, "Unknown")`). -/
def weather_code_to_condition (code : Nat) : String :=
  match code with
  | 0 => "Clear" | 1 => "Mostly Clear" | 2 => "Partly Cloudy" | 3 => "Overcast"
  | 45 => "Foggy" | 48 => "Icy Fog"
  | 51 => "Light Drizzle" | 53 => "Drizzle" | 55 => "Heavy Drizzle"
  | 56 => "Freezing Drizzle" | 57 => "Heavy Freezing Drizzle"
  | 61 => "Light Rain" | 63 => "Rain" | 65 => "Heavy Rain"
  | 66 => "Freezing Rain" | 67 => "Heavy Freezing Rain"
  | 71 => "Light Snow" | 73 => "Snow" | 75 => "Heavy Snow" | 77 => "Snow Grains"
  | 80 => "Light Showers" | 81 => "Showers" | 82 => "Heavy Showers"
  | 85 => "Light Snow Showers" | 86 => "Heavy Snow Showers"
  | 95 => "Thunderstorm" | 96 => "Thunderstorm with Hail"
  | 99 => "Heavy Thunderstorm with Hail"
  | _ => "Unknown"

/-- The `current` object of the forecast response (fields read by
`get_all_weather`; a `none` field is an absent JSON key). -/
structure CurrentObj where
  temperature_2m : Option ℚ := none
  relative_humidity_2m : Option ℚ := none
  apparent_temperature : Option ℚ := none
  weather_code : Option Nat := none
deriving DecidableEq

/-- The `hourly` object of the forecast response. -/
structure HourlyObj where
  time : Option (List String) := none
  temperature_2m : Option (List ℚ) := none
  precipitation_probability : Option (List (Option ℚ)) := none
  wind_speed_10m : Option (List ℚ) := none
  wind_direction_10m : Option (List ℚ) := none
  weather_code : Option (List Nat) := none
deriving DecidableEq

/-- The `daily` object of the forecast response. -/
structure DailyObj where
  time : Option (List String) := none
  temperature_2m_max : Option (List ℚ) := none
  temperature_2m_min : Option (List ℚ) := none
  precipitation_probability_max : Option (List (Option ℚ)) := none
  sunrise : Option (List String) := none
  sunset : Option (List String) := none
deriving DecidableEq

/-- The forecast-endpoint response body. -/
structure ForecastResp where
  current : Option CurrentObj := none
  hourly : Option HourlyObj := none
  daily : Option DailyObj := none
deriving DecidableEq

/-- The `hourly` object of the air-quality response. -/
structure AirQualityHourly where
  time : Option (List String) := none
  us_aqi : Option (List (Option ℚ)) := none
  uv_index : Option (List (Option ℚ)) := none
deriving DecidableEq

/-- The air-quality-endpoint response body. -/
structure AirQualityResp where
  hourly : Option AirQualityHourly := none
deriving DecidableEq

/-- One entry of the normalized `hourly` window. -/
structure HourEntry where
  hour : String
  temp : ℤ
  precip_chance : ℤ
  wind_speed : ℤ
  wind_dir : String
  uv : Option ℚ
  aqi : Option ℤ
  icon : String
deriving DecidableEq

/-- The normalized `current` part. -/
structure CurrentOut where
  temp : ℤ
  feels_like : ℤ
  humidity : ℤ
  weather_code : Nat
  condition : String
deriving DecidableEq

/-- The normalized `today` part. -/
structure TodayOut where
  high : ℤ
  low : ℤ
  sunrise : String
  sunset : String
  max_uv : Option ℚ
  max_aqi : Option ℤ
deriving DecidableEq

/-- One entry of the normalized 7-day `daily` outlook. -/
structure DayOut where
  date : String
  high : ℤ
  low : ℤ
  precip_chance : ℤ
deriving DecidableEq

/-- The full weather snapshot returned by `get_all_weather` on success. -/
structure Snapshot where
  current : CurrentOut
  today : TodayOut
  hourly : List HourEntry
  daily : List DayOut
deriving DecidableEq

/-- Python `max` over a list (`none` on the empty list, where Python would
raise; the callers guard with `if values else None`). -/
def maxList {α : Type} [LinearOrder α] : List α → Option α
  | [] => none
  | x :: xs => some (xs.foldl max x)

/-- The body of the hourly loop of `get_all_weather` (lines 221-240) for
raw series index `i` and time string `t`: the air-quality lookup at the
same index `i` (guarded by the length of `hourly_aq["time"]`, AQI/UV null
if the guard fails or the stored value is null), then the per-hour fields.
`none` models any exception (missing key, short array, unparsable time). -/
def mk_hour_entry (hw : HourlyObj) (aq : AirQualityHourly) (i : Nat) (t : String) :
    Option HourEntry := do
  let aqTimes ← aq.time
  let aqi_uv ←
    if i < aqTimes.length then do
      let us ← aq.us_aqi
      let aqi_val ← us.get? i
      let uvl ← aq.uv_index
      let uv_val ← uvl.get? i
      some (aqi_val.map pyRound, uv_val.map round1)
    else some ((none : Option ℤ), (none : Option ℚ))
  let codes ← hw.weather_code
  let hour_code ← codes.get? i
  let hourStr ← w_format_hour t
  let temps ← hw.temperature_2m
  let temp ← temps.get? i
  let pps ← hw.precipitation_probability
  let pp ← pps.get? i
  let wss ← hw.wind_speed_10m
  let ws ← wss.get? i
  let wds ← hw.wind_direction_10m
  let wd ← wds.get? i
  some {
    hour := hourStr
    temp := pyRound temp
    precip_chance := pyRound (pp.getD 0)
    wind_speed := pyRound ws
    wind_dir := degrees_to_compass wd
    uv := aqi_uv.2
    aqi := aqi_uv.1
    icon := weather_code_to_icon hour_code }

/-- The hourly window loop of `get_all_weather` (lines 213-240) over the
enumerated `hourly_weather["time"]` series: parse the hour, skip it while
it is before `current_hour`, stop once 24 entries are collected, and
otherwise build the entry from the raw index. -/
def hourly_loop (hw : HourlyObj) (aq : AirQualityHourly) (current_hour : DT) :
    List (Nat × String) → Nat → Option (List HourEntry)
  | [], _ => some []
  | (i, t) :: rest, count => do
    let hour_time ← naiveISO t
    if dtLt hour_time current_hour then
      hourly_loop hw aq current_hour rest count
    else if 24 ≤ count then
      some []
    else do
      let entry ← mk_hour_entry hw aq i t
      let events ← hourly_loop hw aq current_hour rest (count + 1)
      some (entry :: events)

/-- One iteration of the 7-day loop of `get_all_weather` (lines 250-256). -/
def mk_day (daily : DailyObj) (dtimes : List String) (i : Nat) : Option DayOut := do
  let t ← dtimes.get? i
  let dstr ← w_format_date t
  let hs ← daily.temperature_2m_max
  let h ← hs.get? i
  let ls ← daily.temperature_2m_min
  let l ← ls.get? i
  let ps ← daily.precipitation_probability_max
  let p ← ps.get? i
  some { date := dstr, high := pyRound h, low := pyRound l,
         precip_chance := pyRound (p.getD 0) }

/-- The "Extract current conditions" section of `get_all_weather`
(lines 186-193). -/
def extract_current (weather_data : ForecastResp) : Option CurrentOut := do
  let cur ← weather_data.current
  let weather_code ← cur.weather_code
  let t ← cur.temperature_2m
  let feels ← cur.apparent_temperature
  let hum ← cur.relative_humidity_2m
  some {
    temp := pyRound t
    feels_like := pyRound feels
    humidity := pyRound hum
    weather_code := weather_code
    condition := weather_code_to_condition weather_code }

/-- The "Extract today's data" section of `get_all_weather` (lines
195-202): rounded first entries of the daily max/min series and the
formatted first sunrise/sunset timestamps. -/
def extract_today_base (daily : DailyObj) : Option (ℤ × ℤ × String × String) := do
  let tmaxs ← daily.temperature_2m_max
  let high0 ← tmaxs.get? 0
  let tmins ← daily.temperature_2m_min
  let low0 ← tmins.get? 0
  let sunrises ← daily.sunrise
  let sunrise0 ← sunrises.get? 0
  let sunriseStr ← w_format_time sunrise0
  let sunsets ← daily.sunset
  let sunset0 ← sunsets.get? 0
  let sunsetStr ← w_format_time sunset0
  some (pyRound high0, pyRound low0, sunriseStr, sunsetStr)

/-- The "Build hourly forecast" section of `get_all_weather` (lines
204-240). -/
def build_hourly (weather_data : ForecastResp) (air_quality_data : AirQualityResp)
    (current_hour : DT) : Option (List HourEntry) := do
  let hourly_weather ← weather_data.hourly
  let hourly_aq ← air_quality_data.hourly
  let times ← hourly_weather.time
  hourly_loop hourly_weather hourly_aq current_hour times.enum 0

/-- The "Build 7-day forecast" section of `get_all_weather` (lines
248-256): `range(1, min(8, len(daily["time"])))`. -/
def build_daily (daily : DailyObj) : Option (List DayOut) := do
  let dtimes ← daily.time
  (List.range' 1 (min 8 dtimes.length - 1)).mapM (mk_day daily dtimes)

/-- `weather.get_all_weather()`, with the two upstream fetch outcomes and
the current display-timezone wall time as inputs. Every exception inside
the `try` block (failed fetch, missing key, short array, unparsable
timestamp) is caught and yields `none`; the stages follow the source's
comment sections. -/
def get_all_weather (now : DT) (wres : Except String ForecastResp)
    (ares : Except String AirQualityResp) : Option Snapshot := do
  let weather_data ← wres.toOption
  let air_quality_data ← ares.toOption
  let current ← extract_current weather_data
  let daily ← weather_data.daily
  let base ← extract_today_base daily
  let hourly ← build_hourly weather_data air_quality_data (truncHour now)
  -- Calculate max UV and max AQI for the next 24 hours
  let uv_values := hourly.filterMap (fun h => h.uv)
  let aqi_values := hourly.filterMap (fun h => h.aqi)
  let today : TodayOut := {
    high := base.1
    low := base.2.1
    sunrise := base.2.2.1
    sunset := base.2.2.2
    max_uv := maxList uv_values
    max_aqi := maxList aqi_values }
  let daily_forecast ← build_daily daily
  some {
    current := current
    today := today
    hourly := hourly
    daily := daily_forecast }

/-! ### `src/app/main.py` -/

/-- The response payload of `/api/events` on the success path. -/
structure ApiResponse where
  generated_at : DT
  timezone : String
  event_count : Nat
  events : List Event
  weather : Option Snapshot
deriving DecidableEq

/-- The `try` block of `main.get_events` (lines 112-124): a calendar
failure propagates (becoming a 401/500 JSON error), while the weather
aggregate is taken as-is — `get_all_weather` never raises, it returns
`None` on any internal error, and the handler serves the response with
that `weather` value. -/
def get_events (events_res : Except String (List Event)) (now : DT) (tzName : String)
    (wres : Except String ForecastResp) (ares : Except String AirQualityResp) :
    Except String ApiResponse :=
  match events_res with
  | .error e => .error e
  | .ok events => .ok {
      generated_at := now
      timezone := tzName
      event_count := events.length
      events := events
      weather := get_all_weather now wres ares }

/-! ### Predicates and concrete data used by the theorems -/

/-- A forecast-hour time string is kept by the hourly window: it parses
(to a naive datetime) and is not strictly before `current_hour`. -/
def keepTime (current_hour : DT) (t : String) : Bool :=
  match naiveISO t with
  | some d => !dtLt d current_hour
  | none => false

/-- A required key is missing from the `current` object. -/
def current_missing (c : CurrentObj) : Prop :=
  c.weather_code = none ∨ c.temperature_2m = none ∨
  c.apparent_temperature = none ∨ c.relative_humidity_2m = none

/-- The key is absent, or its array is empty so that index `[0]` raises. -/
def miss0 {α : Type} (o : Option (List α)) : Prop := o = none ∨ o = some []

/-- A required key (one that `get_all_weather` reads unconditionally) is
missing from the `daily` object. -/
def daily_missing (d : DailyObj) : Prop :=
  miss0 d.temperature_2m_max ∨ miss0 d.temperature_2m_min ∨
  miss0 d.sunrise ∨ miss0 d.sunset ∨ d.time = none

/-- Some field that `get_all_weather` reads unconditionally is absent from
one of the two (successful) responses. -/
def required_field_missing (w : ForecastResp) (a : AirQualityResp) : Prop :=
  w.current = none ∨ (∃ c, w.current = some c ∧ current_missing c) ∨
  w.daily = none ∨ (∃ d, w.daily = some d ∧ daily_missing d) ∨
  w.hourly = none ∨ (∃ h, w.hourly = some h ∧ h.time = none) ∨
  a.hourly = none

/-- Sample forecast-hour series used to witness the window theorems. -/
def sampleTimes : List String :=
  ["2024-06-01T10:00", "2024-06-01T11:00", "2024-06-01T12:00", "2024-06-01T13:00"]

/-- Sample forecast `hourly` object. -/
def sampleHW : HourlyObj := {
  time := some sampleTimes
  temperature_2m := some [50, 60, 70, 80]
  precipitation_probability := some [some 10, none, some 30, some 40]
  wind_speed_10m := some [5, 6, 7, 8]
  wind_direction_10m := some [0, 90, 180, 270]
  weather_code := some [0, 3, 61, 95] }

/-- Sample air-quality `hourly` object (one entry shorter than the
forecast series). -/
def sampleAQ : AirQualityHourly := {
  time := some ["2024-06-01T10:00", "2024-06-01T11:00", "2024-06-01T12:00"]
  us_aqi := some [some 42, some 55, none]
  uv_index := some [some (31/10), none, some 5] }

/-- Sample "now": 11:40:22 on 2024-06-01. -/
def sampleNow : DT := ⟨2024, 6, 1, 11, 40, 22⟩

/-- The window the sample data produces. -/
def sampleWindow : List HourEntry :=
  (hourly_loop sampleHW sampleAQ (truncHour sampleNow) sampleTimes.enum 0).getD []

/-- Sample successful forecast response. -/
def sampleForecast : ForecastResp := {
  current := some {
    temperature_2m := some (665/10)
    relative_humidity_2m := some 55
    apparent_temperature := some (641/10)
    weather_code := some 2 }
  hourly := some sampleHW
  daily := some {
    time := some ["2024-06-01", "2024-06-02", "2024-06-03"]
    temperature_2m_max := some [75, 78, 70]
    temperature_2m_min := some [58, 60, 55]
    precipitation_probability_max := some [some 10, none, some 80]
    sunrise := some ["2024-06-01T05:45"]
    sunset := some ["2024-06-01T20:30"] } }

/-- Sample successful air-quality response. -/
def sampleAir : AirQualityResp := { hourly := some sampleAQ }

/-- Placeholder snapshot (used only to spell `Option.getD`). -/
def emptySnapshot : Snapshot := {
  current := { temp := 0, feels_like := 0, humidity := 0, weather_code := 0,
               condition := "" }
  today := { high := 0, low := 0, sunrise := "", sunset := "",
             max_uv := none, max_aqi := none }
  hourly := []
  daily := [] }

/-- The snapshot the sample responses produce. -/
def sampleSnapshot : Snapshot :=
  (get_all_weather sampleNow (Except.ok sampleForecast) (Except.ok sampleAir)).getD
    emptySnapshot

/-- An upstream record whose start date is present but unparsable. -/
def unparsableRec : Record := { start := some { date := some "not-a-date" } }

/-- A well-formed all-day upstream record. -/
def allDayRec : Record := { start := some { date := some "2024-06-01" } }

/-- A cancelled record with well-formed time fields. -/
def cancelledRec : Record :=
  { status := some "cancelled", start := some { date := some "2024-06-01" } }

/-- A record whose start carries neither a date nor a dateTime. -/
def noStartRec : Record := { start := some { } }

/-! ### Theorems: decimal digit strings -/

theorem digit_char_toNat {d : Nat} (h : d < 10) :
    (Char.ofNat (48 + d)).toNat - 48 = d := by
  interval_cases d <;> decide

theorem digit_char_isDigit {d : Nat} (h : d < 10) :
    (Char.ofNat (48 + d)).isDigit = true := by
  interval_cases d <;> decide

theorem digit_char_ne_dash {d : Nat} (h : d < 10) :
    (Char.ofNat (48 + d) == '-') = false := by
  interval_cases d <;> decide

theorem toDigits_ne_nil (n : Nat) : toDigits n ≠ [] := by
  rw [toDigits]
  split
  · simp
  · simp

theorem toDigits_all_digit (n : Nat) : ∀ c ∈ toDigits n, c.isDigit = true := by
  induction n using Nat.strong_induction_on with
  | _ n ih =>
    rw [toDigits]
    split
    · intro c hc
      simp at hc
      subst hc
      exact digit_char_isDigit (by omega)
    · intro c hc
      rcases List.mem_append.mp hc with h1 | h1
      · exact ih (n / 10) (Nat.div_lt_self (by omega) (by omega)) c h1
      · simp at h1
        subst h1
        exact digit_char_isDigit (Nat.mod_lt _ (by omega))

theorem toDigits_all_ne_dash (n : Nat) : ∀ c ∈ toDigits n, (c == '-') = false := by
  intro c hc
  have hd := toDigits_all_digit n c hc
  revert hd
  unfold Char.isDigit
  intro hd
  by_contra hne
  simp at hne
  subst hne
  simp at hd

theorem foldl_toDigits (n : Nat) :
    ∀ acc, (toDigits n).foldl (fun a c => a * 10 + (c.toNat - 48)) acc
      = acc * 10 ^ (toDigits n).length + n := by
  induction n using Nat.strong_induction_on with
  | _ n ih =>
    intro acc
    rw [toDigits]
    split
    · simp [List.foldl]
      rw [digit_char_toNat (by omega)]
    · rw [List.foldl_append, ih (n / 10) (Nat.div_lt_self (by omega) (by omega)) acc]
      simp [List.foldl]
      rw [digit_char_toNat (Nat.mod_lt _ (by omega))]
      have hdm := Nat.div_add_mod n 10
      have hp : acc * 10 ^ ((toDigits (n / 10)).length + 1)
          = acc * 10 ^ (toDigits (n / 10)).length * 10 := by ring
      rw [hp]
      omega

theorem ofDigits_toDigits (n : Nat) : ofDigits (toDigits n) = n := by
  unfold ofDigits
  rw [foldl_toDigits n 0]
  simp

theorem toDigits_length_le {n k : Nat} (hk : 1 ≤ k) (h : n < 10 ^ k) :
    (toDigits n).length ≤ k := by
  induction k generalizing n with
  | zero => omega
  | succ k ihk =>
    rw [toDigits]
    split
    · simpa using hk
    · rcases Nat.eq_zero_or_pos k with rfl | hkpos
      · norm_num at h
        omega
      · have hdiv : n / 10 < 10 ^ k := by
          rw [Nat.div_lt_iff_lt_mul (by omega)]
          calc n < 10 ^ (k + 1) := h
          _ = 10 ^ k * 10 := by ring
        have hlen := ihk hkpos hdiv
        simp
        omega

theorem toDigits_length_eq_one {n : Nat} (h : n < 10) : (toDigits n).length = 1 := by
  rw [toDigits]
  simp [h]

theorem toDigits_length_ge_two {n : Nat} (h : 10 ≤ n) : 2 ≤ (toDigits n).length := by
  rw [toDigits]
  split
  · omega
  · have := toDigits_ne_nil (n / 10)
    have : 1 ≤ (toDigits (n / 10)).length := by
      cases hl : toDigits (n / 10) with
      | nil => exact absurd hl this
      | cons a l => simp
    simp
    omega

theorem pad2_length {n : Nat} (h : n < 100) : (pad2 n).length = 2 := by
  unfold pad2
  split
  · simp [toDigits_length_eq_one ‹n < 10›]
  · have h2 := toDigits_length_ge_two (by omega : 10 ≤ n)
    have h2' := @toDigits_length_le n 2 (by omega) (by omega)
    omega

theorem pad2_all_digit (n : Nat) : ∀ c ∈ pad2 n, c.isDigit = true := by
  unfold pad2
  split
  · intro c hc
    rcases List.mem_cons.mp hc with h1 | h1
    · subst h1; decide
    · exact toDigits_all_digit n c h1
  · exact toDigits_all_digit n

theorem pad2_all_ne_dash (n : Nat) : ∀ c ∈ pad2 n, (c == '-') = false := by
  unfold pad2
  split
  · intro c hc
    rcases List.mem_cons.mp hc with h1 | h1
    · subst h1; decide
    · exact toDigits_all_ne_dash n c h1
  · exact toDigits_all_ne_dash n

theorem ofDigits_pad2 {n : Nat} (h : n < 100) : ofDigits (pad2 n) = n := by
  unfold pad2
  split
  · show ofDigits ('0' :: toDigits n) = n
    unfold ofDigits
    simp [List.foldl]
    have := foldl_toDigits n 0
    unfold ofDigits at *
    simpa using this
  · exact ofDigits_toDigits n

/-! ### Theorems: splitting and the date round trip -/

theorem takeWhile_until_sep (sep : Char) (r : List Char) :
    ∀ l : List Char, (∀ c ∈ l, (c == sep) = false) →
      (l ++ sep :: r).takeWhile (fun c => c != sep) = l := by
  intro l
  induction l with
  | nil =>
    intro _
    have hs : ¬ ((fun c => c != sep) sep = true) := by simp
    rw [List.nil_append, List.takeWhile_cons, if_neg hs]
  | cons a t ih =>
    intro h
    have ha : (a == sep) = false := h a (by simp)
    have ht : ((fun c => c != sep) a) = true := by
      show (a != sep) = true
      simp [bne, ha]
    rw [List.cons_append, List.takeWhile_cons, if_pos ht,
      ih (fun c hc => h c (List.mem_cons_of_mem a hc))]

theorem dropWhile_until_sep (sep : Char) (r : List Char) :
    ∀ l : List Char, (∀ c ∈ l, (c == sep) = false) →
      (l ++ sep :: r).dropWhile (fun c => c != sep) = sep :: r := by
  intro l
  induction l with
  | nil =>
    intro _
    have hs : ¬ ((fun c => c != sep) sep = true) := by simp
    rw [List.nil_append, List.dropWhile_cons, if_neg hs]
  | cons a t ih =>
    intro h
    have ha : (a == sep) = false := h a (by simp)
    have ht : ((fun c => c != sep) a) = true := by
      show (a != sep) = true
      simp [bne, ha]
    rw [List.cons_append, List.dropWhile_cons, if_pos ht,
      ih (fun c hc => h c (List.mem_cons_of_mem a hc))]

theorem splitAtChar_append (sep : Char) (l r : List Char)
    (h : ∀ c ∈ l, (c == sep) = false) :
    splitAtChar sep (l ++ sep :: r) = some (l, r) := by
  unfold splitAtChar
  rw [List.span_eq_take_drop, takeWhile_until_sep sep r l h, dropWhile_until_sep sep r l h]

theorem readNat_toDigits {n k : Nat} (hk : 1 ≤ k) (h : n < 10 ^ k) :
    readNat (toDigits n) 1 k = some n := by
  unfold readNat
  rw [if_pos, ofDigits_toDigits]
  refine ⟨List.length_pos.mpr (toDigits_ne_nil n), toDigits_length_le hk h, ?_⟩
  rw [List.all_eq_true]
  exact toDigits_all_digit n

theorem readNat_pad2 {n : Nat} (h : n < 100) : readNat (pad2 n) 1 2 = some n := by
  unfold readNat
  rw [if_pos, ofDigits_pad2 h]
  refine ⟨by simp [pad2_length h], by simp [pad2_length h], ?_⟩
  rw [List.all_eq_true]
  exact pad2_all_digit n

theorem daysInMonth_le (y m : Nat) : daysInMonth y m ≤ 31 := by
  unfold daysInMonth
  split_ifs <;> omega

theorem strptime_formatYMD {y m d : Nat} (hy1 : 1 ≤ y) (hy2 : y ≤ 9999)
    (hm1 : 1 ≤ m) (hm2 : m ≤ 12) (hd1 : 1 ≤ d) (hd2 : d ≤ daysInMonth y m) :
    strptimeDate (formatYMD ⟨y, m, d⟩) = some ⟨y, m, d⟩ := by
  have hd2' : d < 100 := by
    have := daysInMonth_le y m
    omega
  have e1 := splitAtChar_append '-' (toDigits y) (pad2 m ++ '-' :: pad2 d)
    (toDigits_all_ne_dash y)
  have e2 := splitAtChar_append '-' (pad2 m) (pad2 d) (pad2_all_ne_dash m)
  have e3 := @readNat_toDigits y 4 (by omega) (by norm_num; omega)
  have e4 := @readNat_pad2 m (by omega)
  have e5 := @readNat_pad2 d hd2'
  unfold strptimeDate
  rw [show (formatYMD ⟨y, m, d⟩).data = toDigits y ++ '-' :: (pad2 m ++ '-' :: pad2 d)
    from rfl]
  simp [e1, e2, e3, e4, e5]
  exact ⟨hy1, hy2, hm1, hm2, hd1, hd2⟩

/-! ### Claim C10 -/

/-- **C10**: for every all-day upstream record whose start date is a valid
`YYYY-MM-DD` string (four-digit year, valid month and day), parsing the
bare date with `strptime("%Y-%m-%d")` and re-formatting it with
`strftime("%Y-%m-%d")` is the identity, so the produced Event's canonical
`date` field equals the upstream start-date string exactly. -/
theorem C10_date_roundtrip (y m d : Nat) (hy1 : 1000 ≤ y) (hy2 : y ≤ 9999)
    (hm1 : 1 ≤ m) (hm2 : m ≤ 12) (hd1 : 1 ≤ d) (hd2 : d ≤ daysInMonth y m) :
    strptimeDate (formatYMD ⟨y, m, d⟩) = some ⟨y, m, d⟩ ∧
    ∀ (rec : Record) (st : StartEnd) (cid : String) (tzOff : Int) (e : Event),
      rec.start = some st → st.date = some (formatYMD ⟨y, m, d⟩) →
      normalize_event rec cid tzOff = Except.ok (some e) →
      e.date = formatYMD ⟨y, m, d⟩ := by
  have hrt := strptime_formatYMD (by omega : 1 ≤ y) hy2 hm1 hm2 hd1 hd2
  refine ⟨hrt, ?_⟩
  intro rec st cid tzOff e hstart hdate hnorm
  have hp : parse_event_time rec tzOff
      = Except.ok (some (⟨y, m, d, 0, 0, 0⟩, true)) := by
    simp only [parse_event_time, hstart, hdate, hrt]
  unfold normalize_event at hnorm
  split at hnorm
  · exact absurd hnorm (by simp)
  · rcases hend : parse_event_end_time rec tzOff with msg | endv
    · simp [hp, hend, Bind.bind, Except.bind] at hnorm
    · simp [hp, hend, Bind.bind, Except.bind, pure, Except.pure] at hnorm
      rw [← hnorm]
      rfl

/-- Witness for C10 at the concrete date 2024-06-01. -/
theorem C10_witness :
    strptimeDate (formatYMD ⟨2024, 6, 1⟩) = some ⟨2024, 6, 1⟩ :=
  (C10_date_roundtrip 2024 6 1 (by decide) (by decide) (by decide) (by decide)
    (by decide) (by decide)).1

/-! ### Claim C3 -/

/-- **C3**: for every all-day event with an end timestamp,
`_format_date_range` subtracts one day from the (exclusive) upstream end
date (`predDayDT`) before comparing and rendering; if the start date then
equals the effective end date it returns the single start date with no
range separator; a multi-day all-day range within one month renders as
start date, dash, end day only (`"Wed Mar 18-22"`), and a multi-day
all-day range crossing a month boundary renders as start date, dash, end
month and day (`"Sat Mar 30-Apr 1"`). -/
theorem C3_date_range_allday (s e : DT) :
    (dtDate s = dtDate (predDayDT e) →
      format_date_range s (some e) true = formatAMD (dtDate s)) ∧
    (dtDate s ≠ dtDate (predDayDT e) → s.month = (predDayDT e).month →
      format_date_range s (some e) true
        = formatAMD (dtDate s) ++ "-" ++ natStr (predDayDT e).day) ∧
    (dtDate s ≠ dtDate (predDayDT e) → s.month ≠ (predDayDT e).month →
      format_date_range s (some e) true
        = formatAMD (dtDate s) ++ "-" ++ monthAbbr (predDayDT e).month ++ " "
          ++ natStr (predDayDT e).day) ∧
    format_date_range ⟨2026, 3, 18, 0, 0, 0⟩ (some ⟨2026, 3, 23, 0, 0, 0⟩) true
      = "Wed Mar 18-22" ∧
    format_date_range ⟨2024, 3, 30, 0, 0, 0⟩ (some ⟨2024, 4, 2, 0, 0, 0⟩) true
      = "Sat Mar 30-Apr 1" := by
  refine ⟨?_, ?_, ?_, by decide, by decide⟩
  · intro h1
    simp [format_date_range, h1]
  · intro h1 h2
    simp [format_date_range, h1, h2]
  · intro h1 h2
    simp [format_date_range, h1, h2]

/-- Witness for C3: the same-month clause applied to the all-day range
2026-03-18 .. exclusive 2026-03-23. -/
theorem C3_witness :
    dtDate ⟨2026, 3, 18, 0, 0, 0⟩ ≠ dtDate (predDayDT ⟨2026, 3, 23, 0, 0, 0⟩) ∧
    format_date_range ⟨2026, 3, 18, 0, 0, 0⟩ (some ⟨2026, 3, 23, 0, 0, 0⟩) true
      = formatAMD (dtDate ⟨2026, 3, 18, 0, 0, 0⟩) ++ "-"
        ++ natStr (predDayDT ⟨2026, 3, 23, 0, 0, 0⟩).day :=
  ⟨by decide,
   (C3_date_range_allday ⟨2026, 3, 18, 0, 0, 0⟩ ⟨2026, 3, 23, 0, 0, 0⟩).2.1
     (by decide) (by decide)⟩

/-! ### Claim C4 -/

theorem toDigits_head_ne_zero_le12 {k : Nat} (h1 : 1 ≤ k) (h2 : k ≤ 12) :
    (toDigits k).head? ≠ some '0' := by
  interval_cases k <;> decide

theorem colon_not_isDigit {c : Char} (h : c.isDigit = true) : c ≠ ':' := by
  intro heq
  subst heq
  exact absurd h (by decide)

/-- **C4**: `_format_time` renders a 12-hour clock string — the hour shown
is `12` when `hour % 12 = 0` and `hour % 12` otherwise, so it lies in
`1..12` and its decimal rendering has no leading zero; when the minutes
are exactly 0 the minutes (and the colon) are omitted entirely, and when
they are non-zero they are rendered as exactly two zero-padded digits. -/
theorem C4_format_time (t : DT) (hh : t.hour < 24) (hm : t.minute < 60) :
    (t.minute = 0 →
      format_time t
        = natStr (if t.hour % 12 = 0 then 12 else t.hour % 12) ++ " "
          ++ (if t.hour < 12 then "AM" else "PM") ∧
      ':' ∉ (format_time t).data) ∧
    (t.minute ≠ 0 →
      format_time t
        = natStr (if t.hour % 12 = 0 then 12 else t.hour % 12) ++ ":"
          ++ (⟨pad2 t.minute⟩ : String) ++ " "
          ++ (if t.hour < 12 then "AM" else "PM") ∧
      (pad2 t.minute).length = 2) ∧
    1 ≤ (if t.hour % 12 = 0 then 12 else t.hour % 12) ∧
    (if t.hour % 12 = 0 then 12 else t.hour % 12) ≤ 12 ∧
    (format_time t).data.head? ≠ some '0' := by
  have hk1 : 1 ≤ (if t.hour % 12 = 0 then 12 else t.hour % 12) := by
    split
    · omega
    · omega
  have hk2 : (if t.hour % 12 = 0 then 12 else t.hour % 12) ≤ 12 := by
    have := Nat.mod_lt t.hour (show 0 < 12 by omega)
    split
    · omega
    · omega
  refine ⟨?_, ?_, hk1, hk2, ?_⟩
  · intro h0
    refine ⟨by unfold format_time; rw [if_pos h0], ?_⟩
    unfold format_time
    rw [if_pos h0]
    intro hmem
    rw [String.data_append, String.data_append] at hmem
    rcases List.mem_append.mp hmem with h1 | h1
    · rcases List.mem_append.mp h1 with h2 | h2
      · exact colon_not_isDigit (toDigits_all_digit _ _ h2) rfl
      · simp at h2
    · revert h1
      split
      · decide
      · decide
  · intro h0
    refine ⟨by unfold format_time; rw [if_neg h0], pad2_length (by omega)⟩
  · have hd : (natStr (if t.hour % 12 = 0 then 12 else t.hour % 12)).data
        = toDigits (if t.hour % 12 = 0 then 12 else t.hour % 12) := rfl
    unfold format_time
    split
    · rw [String.data_append, String.data_append, hd]
      cases hl : toDigits (if t.hour % 12 = 0 then 12 else t.hour % 12) with
      | nil => exact absurd hl (toDigits_ne_nil _)
      | cons a l =>
        have hne := toDigits_head_ne_zero_le12 hk1 hk2
        rw [hl] at hne
        simp only [List.cons_append, List.head?_cons]
        simpa using hne
    · rw [String.data_append, String.data_append, String.data_append,
        String.data_append, hd]
      cases hl : toDigits (if t.hour % 12 = 0 then 12 else t.hour % 12) with
      | nil => exact absurd hl (toDigits_ne_nil _)
      | cons a l =>
        have hne := toDigits_head_ne_zero_le12 hk1 hk2
        rw [hl] at hne
        simp only [List.cons_append, List.head?_cons]
        simpa using hne

/-- Witness for C4 at 20:45 and 8:00. -/
theorem C4_witness :
    ((0 : Nat) = 0 →
      format_time ⟨2024, 1, 1, 8, 0, 0⟩
        = natStr (if 8 % 12 = 0 then 12 else 8 % 12) ++ " "
          ++ (if (8 : Nat) < 12 then "AM" else "PM") ∧
      ':' ∉ (format_time ⟨2024, 1, 1, 8, 0, 0⟩).data) ∧
    ((45 : Nat) ≠ 0 →
      format_time ⟨2024, 1, 1, 20, 45, 0⟩
        = natStr (if 20 % 12 = 0 then 12 else 20 % 12) ++ ":"
          ++ (⟨pad2 45⟩ : String) ++ " "
          ++ (if (20 : Nat) < 12 then "AM" else "PM") ∧
      (pad2 45).length = 2) :=
  ⟨(C4_format_time ⟨2024, 1, 1, 8, 0, 0⟩ (by decide) (by decide)).1,
   (C4_format_time ⟨2024, 1, 1, 20, 45, 0⟩ (by decide) (by decide)).2.1⟩

/-! ### Claim C6 -/

/-- **C6**: `normalize_event` yields no Event when the record's status is
`cancelled` (regardless of its time fields), yields no Event when the
start is absent or carries neither a bare date nor a dateTime, and an
Event is only ever constructed when the start resolves to a parsed
datetime. -/
theorem C6_normalize_skip (rec : Record) (cid : String) (tzOff : Int) :
    (rec.status = some "cancelled" → normalize_event rec cid tzOff = Except.ok none) ∧
    (rec.start = none → normalize_event rec cid tzOff = Except.ok none) ∧
    (∀ st, rec.start = some st → st.date = none → st.dateTime = none →
      normalize_event rec cid tzOff = Except.ok none) ∧
    (∀ e, normalize_event rec cid tzOff = Except.ok (some e) →
      ∃ dt b, parse_event_time rec tzOff = Except.ok (some (dt, b))) := by
  refine ⟨?_, ?_, ?_, ?_⟩
  · intro h
    unfold normalize_event
    rw [if_pos h]
  · intro h
    unfold normalize_event
    split
    · rfl
    · have hp : parse_event_time rec tzOff = Except.ok none := by
        simp only [parse_event_time, h]
      simp [hp, Bind.bind, Except.bind, pure, Except.pure]
  · intro st hstart hdate hdt
    unfold normalize_event
    split
    · rfl
    · have hp : parse_event_time rec tzOff = Except.ok none := by
        simp only [parse_event_time, hstart, hdate, hdt]
      simp [hp, Bind.bind, Except.bind, pure, Except.pure]
  · intro e he
    unfold normalize_event at he
    split at he
    · exact absurd he (by simp)
    · rcases hp : parse_event_time rec tzOff with msg | ov
      · simp [hp, Bind.bind, Except.bind] at he
      · rcases ov with _ | ⟨dt, b⟩
        · simp [hp, Bind.bind, Except.bind, pure, Except.pure] at he
        · exact ⟨dt, b, rfl⟩

/-- Witness for C6: a cancelled record and a record with an unresolvable
start are both skipped. -/
theorem C6_witness :
    cancelledRec.status = some "cancelled" ∧
    normalize_event cancelledRec "cal" 0 = Except.ok none ∧
    noStartRec.start = some { } ∧
    normalize_event noStartRec "cal" 0 = Except.ok none :=
  ⟨rfl, (C6_normalize_skip cancelledRec "cal" 0).1 rfl, rfl,
   (C6_normalize_skip noStartRec "cal" 0).2.2.1 { } rfl rfl rfl⟩

/-! ### Claim C8 -/

/-- Counterexample to C8 as stated: a record whose start date is present
but unparsable does not get skipped silently — the whole fetch aborts
with an error and none of the other fetched events are returned. -/
theorem C8_counterexample :
    (processItems [allDayRec, unparsableRec] "cal" 0).toOption = none ∧
    (processItems [allDayRec] "cal" 0).toOption ≠ none := by
  constructor
  · rfl
  · decide

/-- **C8 amended**: a record that normalizes to nothing (cancelled, or a
start with neither date nor dateTime) is skipped silently and the rest of
the events are still returned; but a record whose start date is present
and does not parse raises an error that propagates and aborts the whole
fetch. -/
theorem C8_amended (rec : Record) (rest : List Record) (cid : String) (tzOff : Int) :
    (normalize_event rec cid tzOff = Except.ok none →
      processItems (rec :: rest) cid tzOff = processItems rest cid tzOff) ∧
    (∀ msg, normalize_event rec cid tzOff = Except.error msg →
      processItems (rec :: rest) cid tzOff = Except.error msg) ∧
    (∀ st s, rec.status ≠ some "cancelled" → rec.start = some st →
      st.date = some s → strptimeDate s = none →
      processItems (rec :: rest) cid tzOff = Except.error "ValueError: strptime") := by
  have hbind : ∀ msg, normalize_event rec cid tzOff = Except.error msg →
      processItems (rec :: rest) cid tzOff = Except.error msg := by
    intro msg h
    simp [processItems, h, Bind.bind, Except.bind]
  refine ⟨?_, hbind, ?_⟩
  · intro h
    cases hP : processItems rest cid tzOff with
    | error msg => simp [processItems, h, hP, Bind.bind, Except.bind]
    | ok evs => simp [processItems, h, hP, Bind.bind, Except.bind, pure, Except.pure]
  · intro st s hstat hstart hdate hparse
    apply hbind
    unfold normalize_event
    rw [if_neg hstat]
    have hp : parse_event_time rec tzOff = Except.error "ValueError: strptime" := by
      simp only [parse_event_time, hstart, hdate, hparse]
    simp [hp, Bind.bind, Except.bind]

/-- Witness for the amended C8: a key-less record is skipped while the
rest of the list is still processed, and an unparsable start date aborts
the fetch. -/
theorem C8_witness :
    normalize_event noStartRec "cal" 0 = Except.ok none ∧
    processItems [noStartRec, allDayRec] "cal" 0 = processItems [allDayRec] "cal" 0 ∧
    processItems [unparsableRec] "cal" 0 = Except.error "ValueError: strptime" :=
  ⟨rfl, (C8_amended noStartRec [allDayRec] "cal" 0).1 rfl,
   (C8_amended unparsableRec [] "cal" 0).2.2 { date := some "not-a-date" }
     "not-a-date" (by decide) rfl rfl (by decide)⟩

/-! ### Claim C2 -/

/-- A produced hour entry's `hour` string is `_format_hour` of the raw
time string at its index. -/
theorem mk_hour_entry_hour {hw : HourlyObj} {aq : AirQualityHourly} {i : Nat}
    {t : String} {e : HourEntry} (h : mk_hour_entry hw aq i t = some e) :
    w_format_hour t = some e.hour := by
  rcases haqt : aq.time with _ | aqTimes
  · have hnone : mk_hour_entry hw aq i t = none := by
      unfold mk_hour_entry
      rw [haqt]
      rfl
    rw [hnone] at h
    exact Option.noConfusion h
  · unfold mk_hour_entry at h
    rw [haqt] at h
    rw [Option.bind_eq_bind] at h
    rw [Option.some_bind] at h
    simp only [] at h
    split at h
    · obtain ⟨us, -, h⟩ := Option.bind_eq_some.mp h
      try simp only [] at h
      obtain ⟨aqi_val, -, h⟩ := Option.bind_eq_some.mp h
      try simp only [] at h
      obtain ⟨uvl, -, h⟩ := Option.bind_eq_some.mp h
      try simp only [] at h
      obtain ⟨uv_val, -, h⟩ := Option.bind_eq_some.mp h
      try simp only [] at h
      obtain ⟨y, -, h⟩ := Option.bind_eq_some.mp h
      try simp only [] at h
      obtain ⟨codes, -, h⟩ := Option.bind_eq_some.mp h
      try simp only [] at h
      obtain ⟨hour_code, -, h⟩ := Option.bind_eq_some.mp h
      try simp only [] at h
      obtain ⟨hourStr, hhour, h⟩ := Option.bind_eq_some.mp h
      try simp only [] at h
      obtain ⟨temps, -, h⟩ := Option.bind_eq_some.mp h
      try simp only [] at h
      obtain ⟨temp, -, h⟩ := Option.bind_eq_some.mp h
      try simp only [] at h
      obtain ⟨pps, -, h⟩ := Option.bind_eq_some.mp h
      try simp only [] at h
      obtain ⟨pp, -, h⟩ := Option.bind_eq_some.mp h
      try simp only [] at h
      obtain ⟨wss, -, h⟩ := Option.bind_eq_some.mp h
      try simp only [] at h
      obtain ⟨ws, -, h⟩ := Option.bind_eq_some.mp h
      try simp only [] at h
      obtain ⟨wds, -, h⟩ := Option.bind_eq_some.mp h
      try simp only [] at h
      obtain ⟨wd, -, h⟩ := Option.bind_eq_some.mp h
      try simp only [] at h
      simp only [Option.some.injEq] at h
      subst h
      exact hhour
    · obtain ⟨y, -, h⟩ := Option.bind_eq_some.mp h
      try simp only [] at h
      obtain ⟨codes, -, h⟩ := Option.bind_eq_some.mp h
      try simp only [] at h
      obtain ⟨hour_code, -, h⟩ := Option.bind_eq_some.mp h
      try simp only [] at h
      obtain ⟨hourStr, hhour, h⟩ := Option.bind_eq_some.mp h
      try simp only [] at h
      obtain ⟨temps, -, h⟩ := Option.bind_eq_some.mp h
      try simp only [] at h
      obtain ⟨temp, -, h⟩ := Option.bind_eq_some.mp h
      try simp only [] at h
      obtain ⟨pps, -, h⟩ := Option.bind_eq_some.mp h
      try simp only [] at h
      obtain ⟨pp, -, h⟩ := Option.bind_eq_some.mp h
      try simp only [] at h
      obtain ⟨wss, -, h⟩ := Option.bind_eq_some.mp h
      try simp only [] at h
      obtain ⟨ws, -, h⟩ := Option.bind_eq_some.mp h
      try simp only [] at h
      obtain ⟨wds, -, h⟩ := Option.bind_eq_some.mp h
      try simp only [] at h
      obtain ⟨wd, -, h⟩ := Option.bind_eq_some.mp h
      try simp only [] at h
      simp only [Option.some.injEq] at h
      subst h
      exact hhour

/-- Window-loop characterization: on a series whose kept entries all
parse, a successful run of the loop from count `k` returns the entries of
the first `24 - k` kept indices, in order. -/
theorem hourly_loop_spec (hw : HourlyObj) (aq : AirQualityHourly) (cur : DT) :
    ∀ (ps : List (Nat × String)) (k : Nat) (l : List HourEntry),
      (∀ p ∈ ps, (naiveISO p.2).isSome) →
      hourly_loop hw aq cur ps k = some l →
      l.length ≤ 24 - k ∧
      l.map (fun e => some e.hour)
        = ((ps.filter (fun p => keepTime cur p.2)).take (24 - k)).map
            (fun p => w_format_hour p.2) := by
  intro ps
  induction ps with
  | nil =>
    intro k l _ hl
    simp [hourly_loop] at hl
    subst hl
    simp
  | cons p rest ih =>
    intro k l hall hl
    obtain ⟨i, t⟩ := p
    have hiso : (naiveISO t).isSome := hall (i, t) (by simp)
    obtain ⟨ht, hts⟩ := Option.isSome_iff_exists.mp hiso
    simp only [hourly_loop] at hl
    rw [hts] at hl
    simp only [Option.bind_eq_bind, Option.some_bind] at hl
    have hkeep : keepTime cur t = !(dtLt ht cur) := by
      simp [keepTime, hts]
    have hrest : ∀ p ∈ rest, (naiveISO p.2).isSome :=
      fun p hp => hall p (by simp [hp])
    by_cases hlt : dtLt ht cur = true
    · rw [if_pos hlt] at hl
      have := ih k l hrest hl
      rw [List.filter_cons]
      simp only [hkeep, hlt, Bool.not_true, if_false]
      exact this
    · have hlt' : dtLt ht cur = false := by
        revert hlt
        cases dtLt ht cur <;> simp
      rw [hlt'] at hl
      simp only [if_false, Bool.false_eq_true] at hl
      by_cases hk : 24 ≤ k
      · rw [if_pos hk] at hl
        simp only [Option.some.injEq] at hl
        subst hl
        have h0 : 24 - k = 0 := by omega
        simp [h0]
      · rw [if_neg hk] at hl
        simp only [Option.bind_eq_some] at hl
        obtain ⟨entry, hentry, events, hevents, heq⟩ := hl
        simp only [Option.some.injEq] at heq
        subst heq
        obtain ⟨ih1, ih2⟩ := ih (k + 1) events hrest hevents
        have h24 : 24 - k = (24 - (k + 1)) + 1 := by omega
        constructor
        · simp
          omega
        · rw [List.filter_cons]
          simp only [hkeep, hlt', Bool.not_false, if_true]
          rw [h24, List.take_succ_cons]
          simp only [List.map_cons]
          rw [ih2, mk_hour_entry_hour hentry]

/-- Index-stripping: filtering an enumerated list on the payload and
dropping the indices is filtering the payloads. -/
theorem enumFrom_filter_snd (q : String → Bool) :
    ∀ (l : List String) (n : Nat),
      ((List.enumFrom n l).filter (fun p => q p.2)).map Prod.snd = l.filter q := by
  intro l
  induction l with
  | nil => intro n; rfl
  | cons a t ih =>
    intro n
    simp only [List.enumFrom, List.filter_cons]
    by_cases hq : q a
    · simp [hq, ih (n + 1)]
    · simp [hq, ih (n + 1)]

theorem mem_enumFrom_snd {α : Type} :
    ∀ (l : List α) (n : Nat) (p : Nat × α), p ∈ List.enumFrom n l → p.2 ∈ l := by
  intro l
  induction l with
  | nil => intro n p hp; simp [List.enumFrom] at hp
  | cons a t ih =>
    intro n p hp
    simp only [List.enumFrom, List.mem_cons] at hp
    rcases hp with rfl | hp
    · simp
    · exact List.mem_cons_of_mem a (ih (n + 1) p hp)

/-- **C2**: the computed hourly window is the image of the first at most
24 forecast-hour timestamps at or after "now" truncated to the start of
the current hour; entries strictly before the truncation point are
discarded, the window has at most 24 entries, and it starts at the first
kept timestamp. -/
theorem C2_hourly_window (hw : HourlyObj) (aq : AirQualityHourly) (now : DT)
    (times : List String) (l : List HourEntry)
    (hparse : ∀ t ∈ times, (naiveISO t).isSome)
    (hloop : hourly_loop hw aq (truncHour now) times.enum 0 = some l) :
    l.length ≤ 24 ∧
    l.map (fun e => some e.hour)
      = ((times.filter (keepTime (truncHour now))).take 24).map w_format_hour ∧
    ∀ t ∈ (times.filter (keepTime (truncHour now))).take 24,
      keepTime (truncHour now) t = true := by
  have hall : ∀ p ∈ times.enum, (naiveISO p.2).isSome := by
    intro p hp
    exact hparse p.2 (mem_enumFrom_snd times 0 p hp)
  obtain ⟨h1, h2⟩ := hourly_loop_spec hw aq (truncHour now) times.enum 0 l hall hloop
  refine ⟨by simpa using h1, ?_, ?_⟩
  · rw [h2]
    show ((times.enum.filter (fun p => keepTime (truncHour now) p.2)).take 24).map
        (fun p => w_format_hour p.2)
      = ((times.filter (keepTime (truncHour now))).take 24).map w_format_hour
    rw [show (fun p : Nat × String => w_format_hour p.2)
        = w_format_hour ∘ Prod.snd from rfl]
    rw [← List.map_map, List.map_take,
      show times.enum = List.enumFrom 0 times from rfl, enumFrom_filter_snd]
  · intro t ht
    exact List.of_mem_filter (List.mem_of_mem_take ht)

set_option maxRecDepth 4000 in
/-- Witness for C2 on the sample series: four forecast hours, "now" at
11:40, window of the three hours from 11:00. -/
theorem C2_witness :
    (∀ t ∈ sampleTimes, (naiveISO t).isSome) ∧
    hourly_loop sampleHW sampleAQ (truncHour sampleNow) sampleTimes.enum 0
      = some sampleWindow ∧
    (sampleWindow.length ≤ 24 ∧
     sampleWindow.map (fun e => some e.hour)
       = ((sampleTimes.filter (keepTime (truncHour sampleNow))).take 24).map
           w_format_hour) := by
  refine ⟨by decide, by decide, ?_⟩
  have h := C2_hourly_window sampleHW sampleAQ sampleNow sampleTimes sampleWindow
    (by decide) (by decide)
  exact ⟨h.1, h.2.1⟩

/-! ### Claim C7 -/

/-- **C7**: in the hourly loop body, the air-quality lookup uses the same
raw series index `i` as the weather lookups; when the air-quality series
has at most `i` entries the guard fails, the entry is built without error
(provided the weather series itself covers index `i`), and its `uv` and
`aqi` fields are null. -/
theorem C7_aq_short_null (hw : HourlyObj) (aq : AirQualityHourly) (i : Nat)
    (t : String) (aqTimes : List String) (codes : List Nat) (temps : List ℚ)
    (pps : List (Option ℚ)) (wss : List ℚ) (wds : List ℚ)
    (haqt : aq.time = some aqTimes) (hshort : aqTimes.length ≤ i)
    (hcodes : hw.weather_code = some codes) (hci : i < codes.length)
    (htemps : hw.temperature_2m = some temps) (hti : i < temps.length)
    (hpps : hw.precipitation_probability = some pps) (hpi : i < pps.length)
    (hwss : hw.wind_speed_10m = some wss) (hwi : i < wss.length)
    (hwds : hw.wind_direction_10m = some wds) (hdi : i < wds.length)
    (hhour : (w_format_hour t).isSome) :
    ∃ e, mk_hour_entry hw aq i t = some e ∧ e.uv = none ∧ e.aqi = none := by
  have hif : ¬ i < aqTimes.length := by omega
  obtain ⟨hs, hhs⟩ := Option.isSome_iff_exists.mp hhour
  have hmk : mk_hour_entry hw aq i t = some {
      hour := hs
      temp := pyRound temps[i]
      precip_chance := pyRound (pps[i].getD 0)
      wind_speed := pyRound wss[i]
      wind_dir := degrees_to_compass wds[i]
      uv := none
      aqi := none
      icon := weather_code_to_icon codes[i] } := by
    unfold mk_hour_entry
    simp [haqt, hif, hcodes, htemps, hpps, hwss, hwds, hhs,
      List.getElem?_eq_getElem hci, List.getElem?_eq_getElem hti,
      List.getElem?_eq_getElem hpi, List.getElem?_eq_getElem hwi,
      List.getElem?_eq_getElem hdi]
  exact ⟨_, hmk, rfl, rfl⟩

/-- Witness for C7 at raw index 3 of the sample data, where the
air-quality series has only 3 entries. -/
theorem C7_witness :
    sampleAQ.time = some ["2024-06-01T10:00", "2024-06-01T11:00", "2024-06-01T12:00"] ∧
    (["2024-06-01T10:00", "2024-06-01T11:00", "2024-06-01T12:00"] : List String).length ≤ 3 ∧
    ∃ e, mk_hour_entry sampleHW sampleAQ 3 "2024-06-01T13:00" = some e ∧
      e.uv = none ∧ e.aqi = none := by
  refine ⟨by decide, by decide, ?_⟩
  exact C7_aq_short_null sampleHW sampleAQ 3 "2024-06-01T13:00"
    ["2024-06-01T10:00", "2024-06-01T11:00", "2024-06-01T12:00"]
    [0, 3, 61, 95] [50, 60, 70, 80] [some 10, none, some 30, some 40]
    [5, 6, 7, 8] [0, 90, 180, 270]
    (by decide) (by decide) (by decide) (by decide) (by decide) (by decide)
    (by decide) (by decide) (by decide) (by decide) (by decide) (by decide)
    (by decide)

/-! ### Claim C9 -/

theorem maxList_eq_none {α : Type} [LinearOrder α] (l : List α) :
    maxList l = none ↔ l = [] := by
  cases l <;> simp [maxList]

/-- **C9**: in every successfully built snapshot, today's `max_uv`
(resp. `max_aqi`) is the maximum of the non-null `uv` (resp. `aqi`) values
of the computed hourly window itself (not of the raw upstream series), and
it is null exactly when the window contains no non-null value for that
field. -/
theorem C9_max_over_window (now : DT) (wres : Except String ForecastResp)
    (ares : Except String AirQualityResp) (snap : Snapshot)
    (h : get_all_weather now wres ares = some snap) :
    (snap.today.max_uv = maxList (snap.hourly.filterMap (fun e => e.uv)) ∧
     snap.today.max_aqi = maxList (snap.hourly.filterMap (fun e => e.aqi))) ∧
    (snap.today.max_uv = none ↔ snap.hourly.filterMap (fun e => e.uv) = []) ∧
    (snap.today.max_aqi = none ↔ snap.hourly.filterMap (fun e => e.aqi) = []) := by
  unfold get_all_weather at h
  obtain ⟨w, -, h⟩ := Option.bind_eq_some.mp h
  try simp only [] at h
  obtain ⟨a, -, h⟩ := Option.bind_eq_some.mp h
  try simp only [] at h
  obtain ⟨current, -, h⟩ := Option.bind_eq_some.mp h
  try simp only [] at h
  obtain ⟨daily, -, h⟩ := Option.bind_eq_some.mp h
  try simp only [] at h
  obtain ⟨base, -, h⟩ := Option.bind_eq_some.mp h
  try simp only [] at h
  obtain ⟨hourly, -, h⟩ := Option.bind_eq_some.mp h
  try simp only [] at h
  obtain ⟨daily_forecast, -, h⟩ := Option.bind_eq_some.mp h
  try simp only [] at h
  simp only [Option.some.injEq] at h
  subst h
  exact ⟨⟨rfl, rfl⟩, maxList_eq_none _, maxList_eq_none _⟩

set_option maxRecDepth 8000 in
/-- Witness for C9 on the sample responses. -/
theorem C9_witness :
    get_all_weather sampleNow (Except.ok sampleForecast) (Except.ok sampleAir)
      = some sampleSnapshot ∧
    (sampleSnapshot.today.max_uv
        = maxList (sampleSnapshot.hourly.filterMap (fun e => e.uv)) ∧
     sampleSnapshot.today.max_aqi
        = maxList (sampleSnapshot.hourly.filterMap (fun e => e.aqi))) := by
  refine ⟨by decide, ?_⟩
  exact (C9_max_over_window sampleNow (Except.ok sampleForecast)
    (Except.ok sampleAir) sampleSnapshot (by decide)).1

/-! ### Claim C5 -/

/-- **C5**: the merged event list is returned sorted with primary key the
canonical date string ascending, secondary key all-day events before timed
events on the same date, and tertiary key the start-time string ascending
lexicographically. -/
theorem C5_sort_order (all_events : List Event) :
    (get_all_events_sort all_events).Pairwise (fun a b =>
      a.date < b.date ∨
      (a.date = b.date ∧
        ((if a.all_day then 0 else 1) < (if b.all_day then (0 : Nat) else 1) ∨
         ((if a.all_day then (0 : Nat) else 1) = (if b.all_day then 0 else 1) ∧
          (if a.start_time ≠ "" then a.start_time else "")
            ≤ (if b.start_time ≠ "" then b.start_time else ""))))) := by
  have hs := @List.sorted_mergeSort Event sortLe
    (fun a b c hab hbc => by
      have h1 : keyLex a ≤ keyLex b := of_decide_eq_true hab
      have h2 : keyLex b ≤ keyLex c := of_decide_eq_true hbc
      exact decide_eq_true (le_trans h1 h2))
    (fun a b => by
      rcases le_total (keyLex a) (keyLex b) with h | h
      · simp [sortLe, h]
      · simp [sortLe, h])
    all_events
  refine hs.imp ?_
  intro a b hab
  have hle : keyLex a ≤ keyLex b := of_decide_eq_true hab
  rcases (Prod.Lex.le_iff _ _).mp hle with h1 | ⟨h1, h2⟩
  · exact Or.inl h1
  · right
    refine ⟨h1, ?_⟩
    rcases (Prod.Lex.le_iff _ _).mp h2 with h3 | ⟨h3, h4⟩
    · exact Or.inl h3
    · exact Or.inr ⟨h3, h4⟩

/-! ### Claim C1 -/

/-- Stage decomposition of `get_all_weather` on two successful fetches
(definitional). -/
theorem get_all_weather_ok (now : DT) (w : ForecastResp) (a : AirQualityResp) :
    get_all_weather now (Except.ok w) (Except.ok a)
      = (extract_current w).bind (fun current =>
          w.daily.bind (fun daily =>
            (extract_today_base daily).bind (fun base =>
              (build_hourly w a (truncHour now)).bind (fun hourly =>
                (build_daily daily).bind (fun daily_forecast =>
                  some {
                    current := current
                    today := {
                      high := base.1
                      low := base.2.1
                      sunrise := base.2.2.1
                      sunset := base.2.2.2
                      max_uv := maxList (hourly.filterMap fun e => e.uv)
                      max_aqi := maxList (hourly.filterMap fun e => e.aqi) }
                    hourly := hourly
                    daily := daily_forecast }))))) := rfl

theorem extract_current_none (w : ForecastResp)
    (h : w.current = none ∨ ∃ c, w.current = some c ∧ current_missing c) :
    extract_current w = none := by
  rcases h with h | ⟨c, hc, hm⟩
  · simp [extract_current, h]
  · rcases hm with h1 | h1 | h1 | h1
    · simp [extract_current, hc, h1]
    · cases hwc : c.weather_code <;> simp [extract_current, hc, h1, hwc]
    · cases hwc : c.weather_code <;> cases htc : c.temperature_2m <;>
        simp [extract_current, hc, h1, hwc, htc]
    · cases hwc : c.weather_code <;> cases htc : c.temperature_2m <;>
        cases hac : c.apparent_temperature <;>
        simp [extract_current, hc, h1, hwc, htc, hac]

theorem extract_today_base_none (d : DailyObj)
    (h : miss0 d.temperature_2m_max ∨ miss0 d.temperature_2m_min ∨
      miss0 d.sunrise ∨ miss0 d.sunset) :
    extract_today_base d = none := by
  rcases h with h1 | h1 | h1 | h1
  · rcases h1 with h1 | h1 <;> simp [extract_today_base, h1]
  · rcases h1 with h1 | h1 <;>
      cases hx : d.temperature_2m_max <;>
        simp [extract_today_base, h1, hx]
  · rcases h1 with h1 | h1 <;>
      cases hx : d.temperature_2m_max <;>
        cases hn : d.temperature_2m_min <;>
          simp [extract_today_base, h1, hx, hn]
  · rcases h1 with h1 | h1 <;>
      cases hx : d.temperature_2m_max <;>
        cases hn : d.temperature_2m_min <;>
          cases hsr : d.sunrise <;>
            simp [extract_today_base, h1, hx, hn, hsr]

theorem build_hourly_none (w : ForecastResp) (a : AirQualityResp) (cur : DT)
    (h : w.hourly = none ∨ (∃ hh, w.hourly = some hh ∧ hh.time = none) ∨
      a.hourly = none) :
    build_hourly w a cur = none := by
  rcases h with h | ⟨hh, hhh, ht⟩ | h
  · simp [build_hourly, h]
  · cases ha : a.hourly <;> simp [build_hourly, hhh, ht, ha]
  · cases hw : w.hourly <;> simp [build_hourly, h, hw]

theorem build_daily_none (d : DailyObj) (h : d.time = none) :
    build_daily d = none := by
  simp [build_daily, h]

/-- Any required field missing from either successful response makes the
whole snapshot null. -/
theorem gaw_required_missing (now : DT) (w : ForecastResp) (a : AirQualityResp)
    (hmiss : required_field_missing w a) :
    get_all_weather now (Except.ok w) (Except.ok a) = none := by
  rw [get_all_weather_ok]
  rcases hmiss with h1 | h1 | h1 | ⟨d, hd, hdm⟩ | h1 | h1 | h1
  · rw [extract_current_none w (Or.inl h1)]
    rfl
  · rw [extract_current_none w (Or.inr h1)]
    rfl
  · cases hec : extract_current w
    · rfl
    · simp only [Option.some_bind]
      rw [h1]
      rfl
  · cases hec : extract_current w
    · rfl
    · simp only [Option.some_bind]
      rw [hd]
      simp only [Option.some_bind]
      rcases hdm with hdm | hdm | hdm | hdm | hdm
      · rw [extract_today_base_none d (Or.inl hdm)]
        rfl
      · rw [extract_today_base_none d (Or.inr (Or.inl hdm))]
        rfl
      · rw [extract_today_base_none d (Or.inr (Or.inr (Or.inl hdm)))]
        rfl
      · rw [extract_today_base_none d (Or.inr (Or.inr (Or.inr hdm)))]
        rfl
      · cases hbb : extract_today_base d
        · rfl
        · simp only [Option.some_bind]
          cases hbh : build_hourly w a (truncHour now)
          · rfl
          · simp only [Option.some_bind]
            rw [build_daily_none d hdm]
            rfl
  · cases hec : extract_current w
    · rfl
    · simp only [Option.some_bind]
      cases hd : w.daily
      · rfl
      · simp only [Option.some_bind]
        cases hbb : extract_today_base _
        · rfl
        · simp only [Option.some_bind]
          rw [build_hourly_none w a (truncHour now) (Or.inl h1)]
          rfl
  · cases hec : extract_current w
    · rfl
    · simp only [Option.some_bind]
      cases hd : w.daily
      · rfl
      · simp only [Option.some_bind]
        cases hbb : extract_today_base _
        · rfl
        · simp only [Option.some_bind]
          rw [build_hourly_none w a (truncHour now) (Or.inr (Or.inl h1))]
          rfl
  · cases hec : extract_current w
    · rfl
    · simp only [Option.some_bind]
      cases hd : w.daily
      · rfl
      · simp only [Option.some_bind]
        cases hbb : extract_today_base _
        · rfl
        · simp only [Option.some_bind]
          rw [build_hourly_none w a (truncHour now) (Or.inr (Or.inr h1))]
          rfl

/-- **C1**: for every pair of upstream fetch outcomes, if either fetch
fails or a required field is absent from either response, then
`get_all_weather` returns no snapshot at all (`none`), and the
`/api/events` handler still serves the overall response successfully with
its `weather` field null. -/
theorem C1_all_or_nothing (now : DT) (tzName : String) (evs : List Event)
    (wres : Except String ForecastResp) (ares : Except String AirQualityResp)
    (h : (∃ msg, wres = Except.error msg) ∨ (∃ msg, ares = Except.error msg) ∨
      (∃ w a, wres = Except.ok w ∧ ares = Except.ok a ∧
        required_field_missing w a)) :
    get_all_weather now wres ares = none ∧
    get_events (Except.ok evs) now tzName wres ares
      = Except.ok { generated_at := now, timezone := tzName,
                    event_count := evs.length, events := evs,
                    weather := none } := by
  have hnone : get_all_weather now wres ares = none := by
    rcases h with ⟨msg, rfl⟩ | ⟨msg, rfl⟩ | ⟨w, a, rfl, rfl, hmiss⟩
    · rfl
    · cases wres <;> rfl
    · exact gaw_required_missing now w a hmiss
  refine ⟨hnone, ?_⟩
  simp [get_events, hnone]

/-- Witness for C1: the air-quality fetch fails while the forecast fetch
succeeds; the snapshot is null and the response is still served. -/
theorem C1_witness :
    ((∃ msg, (Except.ok sampleForecast : Except String ForecastResp)
        = Except.error msg) ∨
     (∃ msg, (Except.error "boom" : Except String AirQualityResp)
        = Except.error msg) ∨
     (∃ w a, (Except.ok sampleForecast : Except String ForecastResp)
          = Except.ok w ∧
        (Except.error "boom" : Except String AirQualityResp) = Except.ok a ∧
        required_field_missing w a)) ∧
    get_all_weather sampleNow (Except.ok sampleForecast) (Except.error "boom")
      = none ∧
    get_events (Except.ok []) sampleNow "UTC" (Except.ok sampleForecast)
        (Except.error "boom")
      = Except.ok { generated_at := sampleNow, timezone := "UTC",
                    event_count := 0, events := [], weather := none } := by
  have h := C1_all_or_nothing sampleNow "UTC" [] (Except.ok sampleForecast)
    (Except.error "boom") (Or.inr (Or.inl ⟨"boom", rfl⟩))
  exact ⟨Or.inr (Or.inl ⟨"boom", rfl⟩), h.1, h.2⟩
